import Mathlib

/-!
Verification of `ai_news_mailer` (src/main.py): a script that fetches news
articles from the NewsAPI search endpoint, filters them for AI relevance by
keyword substring matching, formats a plain-text digest, and sends it by
Gmail SMTP.

The Python code is shallowly embedded: article records are dictionaries with
optionally absent, possibly `None`-valued fields; fallible code returns
`Except Err`; the I/O of a run is made explicit as a trace of events, with
the external world (NewsAPI responses, SMTP outcome) passed in as a `World`
record.
-/

namespace AINews

/-- A JSON-ish field value inside an article record: Python `None` or a
string. -/
inductive JVal where
  | null : JVal
  | str : String → JVal
deriving DecidableEq, Repr

/-- One NewsAPI article record.  A field equal to `none` models the key being
absent from the dictionary; `some JVal.null` models the key present with
value `None`; `some (JVal.str s)` models a string value. -/
structure Article where
  title : Option JVal := none
  description : Option JVal := none
  content : Option JVal := none
  url : Option JVal := none
deriving DecidableEq, Repr

/-- Python substring test `sub in s`. -/
def strContains (s sub : String) : Bool :=
  decide (sub.data <:+: s.data)

/-- Python `s.lower()`, modelled as character-wise lowercasing. -/
def pyLower (s : String) : String :=
  ⟨s.data.map Char.toLower⟩

/-- The module-level keyword list `KEYWORDS` of src/main.py. -/
def KEYWORDS : List String :=
  ["artificial intelligence", "openai", "chatgpt", "llm", "生成ai", "人工知能"]

/-- Python `article.get(key, "")` for the title, as consumed by
`" ".join(...)`: an absent key defaults to `""`; a present string is used as
is; a present `None` makes `str.join` raise `TypeError`. -/
def titleForJoin : Option JVal → Except String String
  | none => Except.ok ""
  | some (JVal.str s) => Except.ok s
  | some JVal.null => Except.error "TypeError: sequence item: expected str instance, NoneType found"

/-- Python `article.get(key, "") or ""` (resp. `article.get(key) or ""`):
absent and `None` both collapse to `""`; a string value is kept (an empty
string is unchanged by `or ""`). -/
def orEmpty : Option JVal → String
  | none => ""
  | some JVal.null => ""
  | some (JVal.str s) => s

/-- The text blob `" ".join([title, description, content])` built by
`is_ai_related` (before lowercasing), defined when the join does not raise. -/
def joinText (a : Article) : Except String String :=
  match titleForJoin a.title with
  | Except.error e => Except.error e
  | Except.ok t =>
    Except.ok (String.intercalate " " [t, orEmpty a.description, orEmpty a.content])

/-- `is_ai_related` (src/main.py:44-66): concatenate title / description /
content with spaces, lowercase, and test whether any keyword occurs as a
substring.  Raises (returns `Except.error`) exactly when the join raises. -/
def is_ai_related (a : Article) : Except String Bool :=
  match joinText a with
  | Except.error e => Except.error e
  | Except.ok t => Except.ok (KEYWORDS.any fun k => strContains (pyLower t) (pyLower k))

/-- How an article's title is rendered by `build_email_body`:
`a.get("title", "(no title)")` interpolated into an f-string, so an absent
key gives `"(no title)"` and a `None` value prints as `"None"`. -/
def renderTitle : Option JVal → String
  | none => "(no title)"
  | some JVal.null => "None"
  | some (JVal.str s) => s

/-- How an article's url is rendered: `a.get("url", "")`, then used under
`if url:`, so absent and `None` and `""` are all falsy.  We return the
string to print when truthy. -/
def renderUrl : Option JVal → String
  | some (JVal.str s) => s
  | _ => ""

/-- Truthiness of `a.get("url", "")`: `None` and `""` and an absent key are
falsy. -/
def urlTruthy (v : Option JVal) : Bool :=
  renderUrl v ≠ ""

/-- The fixed not-found sentence of `build_email_body`. -/
def notFoundMsg : String := "本日はAI関連の新着ニュースは見つかりませんでした。"

/-- The lines the loop body of `build_email_body` appends for one article. -/
def entryLines (a : Article) : List String :=
  ["■ " ++ renderTitle a.title]
    ++ (if orEmpty a.description ≠ "" then [orEmpty a.description] else [])
    ++ (if urlTruthy a.url then [renderUrl a.url] else [])
    ++ [""]

/-- `build_email_body` (src/main.py:69-103).  `date.today().isoformat()` is
impure, so the current date is an explicit parameter `today`. -/
def build_email_body (today : String) (articles : List Article) : String :=
  if articles.isEmpty then
    today ++ "\n\n" ++ notFoundMsg
  else
    let init := [today ++ " / AI関連ニュース " ++ toString articles.length ++ "件", ""]
    let lines := articles.foldl (fun acc a => acc ++ entryLines a) init
    String.intercalate "\n" lines

/-- Errors a run can raise, mirroring the exception classes of the script:
`RuntimeError` for missing configuration, `requests` / `smtplib` exceptions
for network failures, `TypeError` from string operations. -/
inductive Err where
  | config : String → Err
  | network : String → Err
  | typeError : String → Err
deriving DecidableEq, Repr

/-- The process environment read at module load (src/main.py:29-31).
`none` models an unset variable. -/
structure Config where
  news_api_key : Option String := none
  gmail_address : Option String := none
  gmail_app_password : Option String := none
deriving DecidableEq, Repr

/-- Python truthiness of an environment value: unset (`None`) and `""` are
falsy, as tested by `if not NEWS_API_KEY:` etc. -/
def envTruthy : Option String → Bool
  | none => false
  | some s => s ≠ ""

/-- The query parameters of the single HTTP GET issued by `request_news`
(src/main.py:162-174), together with the endpoint URL and timeout. -/
structure NewsRequest where
  url : String
  q : String
  language : String
  searchIn : String
  sortBy : String
  pageSize : Nat
  timeout : Nat
  apiKey : String
deriving DecidableEq, Repr

/-- The request `request_news` sends for a given language. -/
def newsReq (cfg : Config) (language : String) : NewsRequest where
  url := "https://newsapi.org/v2/everything"
  q := "(\"artificial intelligence\" OR OpenAI OR ChatGPT OR LLM OR 生成AI OR 人工知能)"
  language := language
  searchIn := "title,description"
  sortBy := "publishedAt"
  pageSize := 10
  timeout := 20
  apiKey := cfg.news_api_key.getD ""

/-- One observable I/O round trip of a run: an HTTP GET to the news endpoint,
or one SMTP session delivering a message. -/
inductive Event where
  | news : NewsRequest → Event
  | mail : (subject sender recipient body : String) → Event
deriving DecidableEq, Repr

/-- Is an event a news-endpoint round trip? -/
def Event.isNews : Event → Bool
  | Event.news _ => true
  | _ => false

/-- Is an event a mail round trip? -/
def Event.isMail : Event → Bool
  | Event.mail _ _ _ _ => true
  | _ => false

/-- The external world: what the news endpoint answers for each language
(`Except.error` = HTTP error / timeout), and how the SMTP session for a given
body turns out. -/
structure World where
  news : String → Except String (List Article)
  smtp : String → Except String Unit

/-- `request_news` (src/main.py:137-176): fail with a configuration error if
the API key is unset or empty, before any I/O; otherwise perform exactly one
GET carrying the fixed parameters and return the parsed article list
unchanged (an HTTP-level failure surfaces as a network error after the
round trip). -/
def request_news (cfg : Config) (w : World) (language : String) :
    List Event × Except Err (List Article) :=
  if ¬ envTruthy cfg.news_api_key then
    ([], Except.error (Err.config "NEWS_API_KEY is not set"))
  else
    match w.news language with
    | Except.error e => ([Event.news (newsReq cfg language)], Except.error (Err.network e))
    | Except.ok arts => ([Event.news (newsReq cfg language)], Except.ok arts)

/-- The mail round trip `send_email` performs: subject `"Daily AI News - "`
plus the date, `From` and `To` both the configured Gmail address, body =
digest. -/
def mailEv (cfg : Config) (today body : String) : Event :=
  Event.mail ("Daily AI News - " ++ today) (cfg.gmail_address.getD "")
    (cfg.gmail_address.getD "") body

/-- `send_email` (src/main.py:106-134): fail with a configuration error if
the Gmail address or app password is unset or empty, before any I/O;
otherwise open one SMTP session and send the message (self-addressed, with
the dated subject). -/
def send_email (cfg : Config) (w : World) (today body : String) :
    List Event × Except Err Unit :=
  if ¬ envTruthy cfg.gmail_address ∨ ¬ envTruthy cfg.gmail_app_password then
    ([], Except.error (Err.config "GMAIL_ADDRESS or GMAIL_APP_PASSWORD is not set"))
  else
    match w.smtp body with
    | Except.error e => ([mailEv cfg today body], Except.error (Err.network e))
    | Except.ok _ => ([mailEv cfg today body], Except.ok ())

/-- The list comprehension `[a for a in arts if is_ai_related(a)]`:
left-to-right, propagating the first exception `is_ai_related` raises. -/
def pyFilter : List Article → Except Err (List Article)
  | [] => Except.ok []
  | a :: rest =>
    match is_ai_related a with
    | Except.error e => Except.error (Err.typeError e)
    | Except.ok b =>
      match pyFilter rest with
      | Except.error e => Except.error e
      | Except.ok r => Except.ok (if b then a :: r else r)

/-- `main` (src/main.py:179-197): fetch+filter in Japanese; if the filtered
result is empty, fetch+filter in English; build the body; send.  Returns the
full event trace and the run's outcome. -/
def main (cfg : Config) (w : World) (today : String) :
    List Event × Except Err Unit :=
  let (ev1, r1) := request_news cfg w "ja"
  match r1 with
  | Except.error e => (ev1, Except.error e)
  | Except.ok arts =>
    match pyFilter arts with
    | Except.error e => (ev1, Except.error e)
    | Except.ok jaFiltered =>
      if jaFiltered.isEmpty then
        let (ev2, r2) := request_news cfg w "en"
        match r2 with
        | Except.error e => (ev1 ++ ev2, Except.error e)
        | Except.ok arts2 =>
          match pyFilter arts2 with
          | Except.error e => (ev1 ++ ev2, Except.error e)
          | Except.ok enFiltered =>
            let (ev3, r3) := send_email cfg w today (build_email_body today enFiltered)
            (ev1 ++ ev2 ++ ev3, r3)
      else
        let (ev3, r3) := send_email cfg w today (build_email_body today jaFiltered)
        (ev1 ++ ev3, r3)

/-- A fully configured environment, for concrete runs. -/
def sampleConfig : Config :=
  { news_api_key := some "key", gmail_address := some "me@gmail.com",
    gmail_app_password := some "apppass" }

/-- A configuration with mail credentials but no API key. -/
def configNoKey : Config :=
  { gmail_address := some "me@gmail.com", gmail_app_password := some "apppass" }

/-- A configuration with an API key but no mail credentials. -/
def configNoMail : Config :=
  { news_api_key := some "key" }

/-- A world where the news endpoint returns no articles and SMTP succeeds. -/
def sampleWorld : World :=
  { news := fun _ => Except.ok [], smtp := fun _ => Except.ok () }

/-- An article about ChatGPT, with only a title. -/
def sampleArticle : Article :=
  { title := some (JVal.str "ChatGPT update shipped") }

/- ### Helper lemmas -/

theorem strContains_iff (s sub : String) :
    strContains s sub = true ↔ sub.data <:+: s.data := by
  simp [strContains]

theorem singleton_isInfix_iff (a : Char) (l : List Char) :
    [a] <:+: l ↔ a ∈ l := by
  constructor
  · rintro ⟨s, t, rfl⟩
    simp
  · intro h
    obtain ⟨s, t, rfl⟩ := List.append_of_mem h
    exact ⟨s, t, by simp⟩

theorem foldl_entryLines (l : List Article) (init : List String) :
    l.foldl (fun acc a => acc ++ entryLines a) init = init ++ l.flatMap entryLines := by
  induction l generalizing init with
  | nil => simp
  | cons a t ih => simp [ih, List.append_assoc]

theorem is_ai_related_ok_of_title_str (a : Article) (s : String)
    (h : a.title = some (JVal.str s)) :
    is_ai_related a = Except.ok (KEYWORDS.any fun k =>
      strContains (pyLower (String.intercalate " "
        [s, orEmpty a.description, orEmpty a.content])) (pyLower k)) := by
  simp [is_ai_related, joinText, titleForJoin, h]

theorem is_ai_related_ok_of_title_absent (a : Article) (h : a.title = none) :
    is_ai_related a = Except.ok (KEYWORDS.any fun k =>
      strContains (pyLower (String.intercalate " "
        ["", orEmpty a.description, orEmpty a.content])) (pyLower k)) := by
  simp [is_ai_related, joinText, titleForJoin, h]

/- ### Claims -/

/-- C1: for every article record on which the join does not raise, if the
concatenated (title / description / content) text blob contains some keyword
after case-folding both sides, `is_ai_related` returns `true`; if the blob
contains none of the keywords, it returns `false`. -/
theorem is_ai_related_keyword_correct (a : Article) (t : String)
    (ht : joinText a = Except.ok t) :
    ((∃ k ∈ KEYWORDS, strContains (pyLower t) (pyLower k) = true) →
      is_ai_related a = Except.ok true) ∧
    ((∀ k ∈ KEYWORDS, strContains (pyLower t) (pyLower k) = false) →
      is_ai_related a = Except.ok false) := by
  have hrun : is_ai_related a
      = Except.ok (KEYWORDS.any fun k => strContains (pyLower t) (pyLower k)) := by
    simp [is_ai_related, ht]
  constructor
  · rintro ⟨k, hk, hc⟩
    rw [hrun]
    have : (KEYWORDS.any fun k => strContains (pyLower t) (pyLower k)) = true :=
      List.any_eq_true.mpr ⟨k, hk, hc⟩
    rw [this]
  · intro h
    rw [hrun]
    have : (KEYWORDS.any fun k => strContains (pyLower t) (pyLower k)) = false :=
      List.any_eq_false.mpr fun k hk => by simp [h k hk]
    rw [this]

/-- Witness for C1: on a concrete article titled "ChatGPT update shipped" the
hypotheses hold and `is_ai_related` returns `true`. -/
theorem is_ai_related_keyword_correct_witness :
    is_ai_related sampleArticle = Except.ok true :=
  (is_ai_related_keyword_correct sampleArticle "ChatGPT update shipped  "
    rfl).1 ⟨"chatgpt", by decide, by decide⟩

/-- C7: on an article whose `description` and `content` keys are absent (and
whose title is not a present `None`, per the data model `title : string`),
`is_ai_related` behaves as if both fields were the empty string and returns a
boolean without raising. -/
theorem is_ai_related_absent_fields (a : Article)
    (hT : a.title ≠ some JVal.null)
    (hd : a.description = none) (hc : a.content = none) :
    is_ai_related a = is_ai_related
      { a with description := some (JVal.str ""), content := some (JVal.str "") } ∧
    ∃ b, is_ai_related a = Except.ok b := by
  obtain ⟨ti, de, co, u⟩ := a
  simp only at hd hc hT
  subst hd
  subst hc
  rcases ti with _ | v
  · exact ⟨rfl, _, rfl⟩
  · rcases v with _ | s
    · exact absurd rfl hT
    · exact ⟨rfl, _, rfl⟩

/-- Witness for C7: a concrete article with only a title satisfies the
hypotheses. -/
theorem is_ai_related_absent_fields_witness :
    (is_ai_related sampleArticle = is_ai_related
      { sampleArticle with
        description := some (JVal.str ""), content := some (JVal.str "") } ∧
    ∃ b, is_ai_related sampleArticle = Except.ok b) :=
  is_ai_related_absent_fields sampleArticle (by simp [sampleArticle]) rfl rfl

/-- C10: `is_ai_related` raises on a present-but-`None` title, never raises
when the title is not a present `None` (in particular a `None` description or
content is coerced to the empty string), and a missing title key is tolerated
by defaulting it to the empty string. -/
theorem is_ai_related_null_totality :
    (∀ a : Article, a.title = some JVal.null →
      ∃ e, is_ai_related a = Except.error e) ∧
    (∀ a : Article, a.title ≠ some JVal.null →
      ∃ b, is_ai_related a = Except.ok b) ∧
    (∀ a : Article, a.title = none →
      is_ai_related a = is_ai_related { a with title := some (JVal.str "") }) := by
  refine ⟨?_, ?_, ?_⟩
  · intro a h
    exact ⟨"TypeError: sequence item: expected str instance, NoneType found",
      by simp [is_ai_related, joinText, titleForJoin, h]⟩
  · intro a h
    rcases ht : a.title with _ | v
    · exact ⟨_, is_ai_related_ok_of_title_absent a ht⟩
    · rcases v with _ | s
      · exact absurd ht h
      · exact ⟨_, is_ai_related_ok_of_title_str a s ht⟩
  · intro a h
    obtain ⟨ti, de, co, u⟩ := a
    simp only at h
    subst h
    rfl

/-- Witness for C10: a record with a present `None` title makes
`is_ai_related` raise. -/
theorem is_ai_related_null_totality_witness :
    ∃ e, is_ai_related { title := some JVal.null } = Except.error e :=
  is_ai_related_null_totality.1 { title := some JVal.null } rfl

/-- C8: `build_email_body` is deterministic: two calls with the identical
article list and the same current date yield identical output strings. -/
theorem build_email_body_deterministic (t₁ t₂ : String)
    (l₁ l₂ : List Article) (ht : t₁ = t₂) (hl : l₁ = l₂) :
    build_email_body t₁ l₁ = build_email_body t₂ l₂ := by
  rw [ht, hl]

/-- Witness for C8: two identical concrete calls agree. -/
theorem build_email_body_deterministic_witness :
    build_email_body "2026-10-12" [sampleArticle]
      = build_email_body "2026-10-12" [sampleArticle] :=
  build_email_body_deterministic "2026-10-12" "2026-10-12"
    [sampleArticle] [sampleArticle] rfl rfl

/-- C2: on a non-empty list, `build_email_body` is the header line (date and
count), a blank line, then, in input order, each article's bullet-marked
title line, its description line only if non-empty, its URL line only if
non-empty (`entryLines` includes the trailing blank line); in particular
every title line appears. -/
theorem build_email_body_nonempty (today : String) (l : List Article)
    (h : l ≠ []) :
    build_email_body today l =
      String.intercalate "\n"
        ([today ++ " / AI関連ニュース " ++ toString l.length ++ "件", ""]
          ++ l.flatMap entryLines) ∧
    ∀ a ∈ l, ("■ " ++ renderTitle a.title) ∈
      ([today ++ " / AI関連ニュース " ++ toString l.length ++ "件", ""]
        ++ l.flatMap entryLines) := by
  constructor
  · have hne : l.isEmpty = false := by
      cases l with
      | nil => exact absurd rfl h
      | cons a t => rfl
    simp [build_email_body, hne, foldl_entryLines]
  · intro a ha
    refine List.mem_append.mpr (Or.inr ?_)
    exact List.mem_flatMap.mpr ⟨a, ha, by simp [entryLines]⟩

/-- Witness for C2: a one-article list produces the expected lines. -/
theorem build_email_body_nonempty_witness :
    build_email_body "2026-10-12" [sampleArticle] =
      String.intercalate "\n"
        (["2026-10-12" ++ " / AI関連ニュース " ++ toString ([sampleArticle].length) ++ "件", ""]
          ++ [sampleArticle].flatMap entryLines) ∧
    ∀ a ∈ [sampleArticle], ("■ " ++ renderTitle a.title) ∈
      (["2026-10-12" ++ " / AI関連ニュース " ++ toString ([sampleArticle].length) ++ "件", ""]
        ++ [sampleArticle].flatMap entryLines) :=
  build_email_body_nonempty "2026-10-12" [sampleArticle] (by decide)

/-- C3: on the empty list, `build_email_body` returns the current date, a
blank line, and the fixed not-found sentence; the result contains the date
and the not-found phrase and no bullet marker (provided the date string
itself carries none). -/
theorem build_email_body_empty (today : String)
    (hb : strContains today "■" = false) :
    build_email_body today [] = today ++ "\n\n" ++ notFoundMsg ∧
    strContains (build_email_body today []) today = true ∧
    strContains (build_email_body today []) notFoundMsg = true ∧
    strContains (build_email_body today []) "■" = false := by
  have h1 : build_email_body today [] = today ++ "\n\n" ++ notFoundMsg := rfl
  have hbm : ('■' : Char) ∉ today.data := by
    intro hm
    have : strContains today "■" = true :=
      (strContains_iff today "■").mpr ((singleton_isInfix_iff '■' today.data).mpr hm)
    rw [hb] at this
    exact Bool.false_ne_true this
  refine ⟨h1, ?_, ?_, ?_⟩
  · rw [h1]
    exact (strContains_iff _ _).mpr
      ⟨[], ("\n\n" ++ notFoundMsg).data, by simp⟩
  · rw [h1]
    exact (strContains_iff _ _).mpr
      ⟨(today ++ "\n\n").data, [], by simp⟩
  · rw [h1]
    simp only [strContains, decide_eq_false_iff_not]
    intro hin
    have hmem : ('■' : Char) ∈ (today ++ "\n\n" ++ notFoundMsg).data :=
      (singleton_isInfix_iff '■' _).mp hin
    rw [String.data_append, String.data_append, List.mem_append, List.mem_append] at hmem
    rcases hmem with (hm | hm) | hm
    · exact hbm hm
    · exact absurd hm (by decide)
    · exact absurd hm (by decide)

/-- Witness for C3: with the date "2026-10-12" all four conjuncts hold. -/
theorem build_email_body_empty_witness :
    build_email_body "2026-10-12" [] = "2026-10-12" ++ "\n\n" ++ notFoundMsg ∧
    strContains (build_email_body "2026-10-12" []) "2026-10-12" = true ∧
    strContains (build_email_body "2026-10-12" []) notFoundMsg = true ∧
    strContains (build_email_body "2026-10-12" []) "■" = false :=
  build_email_body_empty "2026-10-12" (by decide)

theorem send_email_config_error (cfg : Config) (w : World) (today body : String)
    (hg : envTruthy cfg.gmail_address = false ∨
      envTruthy cfg.gmail_app_password = false) :
    send_email cfg w today body
      = ([], Except.error
          (Err.config "GMAIL_ADDRESS or GMAIL_APP_PASSWORD is not set")) := by
  have hc : ¬ envTruthy cfg.gmail_address ∨ ¬ envTruthy cfg.gmail_app_password := by
    rcases hg with h | h
    · exact Or.inl (by simp [h])
    · exact Or.inr (by simp [h])
  unfold send_email
  rw [if_pos hc]

theorem send_email_ok_trace (cfg : Config) (w : World) (today body : String)
    (h : (send_email cfg w today body).2 = Except.ok ()) :
    send_email cfg w today body = ([mailEv cfg today body], Except.ok ()) := by
  by_cases hc : ¬ envTruthy cfg.gmail_address ∨ ¬ envTruthy cfg.gmail_app_password
  · exfalso
    unfold send_email at h
    rw [if_pos hc] at h
    simp at h
  · unfold send_email at h ⊢
    rw [if_neg hc] at h ⊢
    cases hs : w.smtp body with
    | error e =>
      rw [hs] at h
      simp at h
    | ok u =>
      rfl

theorem main_branches (cfg : Config) (w : World) (today : String) :
    main cfg w today = ([], Except.error (Err.config "NEWS_API_KEY is not set")) ∨
    (∃ e, main cfg w today = ([Event.news (newsReq cfg "ja")], Except.error e)) ∨
    (∃ arts f, w.news "ja" = Except.ok arts ∧ pyFilter arts = Except.ok f ∧
      f ≠ [] ∧
      main cfg w today
        = (Event.news (newsReq cfg "ja")
            :: (send_email cfg w today (build_email_body today f)).1,
           (send_email cfg w today (build_email_body today f)).2)) ∨
    (∃ e arts, w.news "ja" = Except.ok arts ∧ pyFilter arts = Except.ok [] ∧
      main cfg w today
        = ([Event.news (newsReq cfg "ja"), Event.news (newsReq cfg "en")],
           Except.error e)) ∨
    (∃ arts arts2 f2, w.news "ja" = Except.ok arts ∧ pyFilter arts = Except.ok [] ∧
      w.news "en" = Except.ok arts2 ∧ pyFilter arts2 = Except.ok f2 ∧
      main cfg w today
        = (Event.news (newsReq cfg "ja") :: Event.news (newsReq cfg "en")
            :: (send_email cfg w today (build_email_body today f2)).1,
           (send_email cfg w today (build_email_body today f2)).2)) := by
  by_cases hk : envTruthy cfg.news_api_key = true
  · cases hja : w.news "ja" with
    | error e =>
      exact Or.inr (Or.inl ⟨Err.network e, by simp [main, request_news, hk, hja]⟩)
    | ok arts =>
      cases hf : pyFilter arts with
      | error e =>
        exact Or.inr (Or.inl ⟨e, by simp [main, request_news, hk, hja, hf]⟩)
      | ok f =>
        cases f with
        | cons x xs =>
          refine Or.inr (Or.inr (Or.inl ⟨arts, x :: xs, rfl, hf, by simp, ?_⟩))
          simp [main, request_news, hk, hja, hf]
        | nil =>
          cases hen : w.news "en" with
          | error e =>
            refine Or.inr (Or.inr (Or.inr (Or.inl ⟨Err.network e, arts, rfl, hf, ?_⟩)))
            simp [main, request_news, hk, hja, hf, hen]
          | ok arts2 =>
            cases hf2 : pyFilter arts2 with
            | error e =>
              refine Or.inr (Or.inr (Or.inr (Or.inl ⟨e, arts, rfl, hf, ?_⟩)))
              simp [main, request_news, hk, hja, hf, hen, hf2]
            | ok f2 =>
              refine Or.inr (Or.inr (Or.inr (Or.inr
                ⟨arts, arts2, f2, rfl, hf, rfl, hf2, ?_⟩)))
              simp [main, request_news, hk, hja, hf, hen, hf2]
  · have hk' : envTruthy cfg.news_api_key = false := by
      cases hkv : envTruthy cfg.news_api_key
      · rfl
      · exact absurd hkv hk
    exact Or.inl (by simp [main, request_news, hk'])

/-- C5: with the API key unset (or empty), `request_news` fails with a
configuration error (not a network error) before any HTTP call, and a whole
run aborts with an empty event trace. -/
theorem request_news_missing_key (cfg : Config) (w : World) (today lang : String)
    (hk : envTruthy cfg.news_api_key = false) :
    request_news cfg w lang
      = ([], Except.error (Err.config "NEWS_API_KEY is not set")) ∧
    main cfg w today
      = ([], Except.error (Err.config "NEWS_API_KEY is not set")) := by
  have h1 : ∀ lg, request_news cfg w lg
      = ([], Except.error (Err.config "NEWS_API_KEY is not set")) := by
    intro lg
    simp [request_news, hk]
  exact ⟨h1 lang, by simp [main, h1]⟩

/-- Witness for C5: a configuration with no API key aborts a concrete run
with no network call. -/
theorem request_news_missing_key_witness :
    request_news configNoKey sampleWorld "ja"
      = ([], Except.error (Err.config "NEWS_API_KEY is not set")) ∧
    main configNoKey sampleWorld "2026-10-12"
      = ([], Except.error (Err.config "NEWS_API_KEY is not set")) :=
  request_news_missing_key configNoKey sampleWorld "2026-10-12" "ja" rfl

/-- C9: with the API key set and the endpoint answering, `request_news`
issues exactly one GET to the fixed search endpoint with timeout 20,
`searchIn` restricted to title and description, sorted by `publishedAt`,
page size 10, and returns the parsed article list unchanged. -/
theorem request_news_params (cfg : Config) (w : World) (lang : String)
    (arts : List Article)
    (hk : envTruthy cfg.news_api_key = true)
    (hw : w.news lang = Except.ok arts) :
    request_news cfg w lang = ([Event.news (newsReq cfg lang)], Except.ok arts) ∧
    (newsReq cfg lang).url = "https://newsapi.org/v2/everything" ∧
    (newsReq cfg lang).searchIn = "title,description" ∧
    (newsReq cfg lang).sortBy = "publishedAt" ∧
    (newsReq cfg lang).pageSize = 10 ∧
    (newsReq cfg lang).timeout = 20 ∧
    (newsReq cfg lang).language = lang := by
  refine ⟨?_, rfl, rfl, rfl, rfl, rfl, rfl⟩
  simp [request_news, hk, hw]

/-- Witness for C9: a concrete configured fetch performs one GET and returns
the endpoint's (empty) article list. -/
theorem request_news_params_witness :
    request_news sampleConfig sampleWorld "ja"
      = ([Event.news (newsReq sampleConfig "ja")], Except.ok []) ∧
    (newsReq sampleConfig "ja").url = "https://newsapi.org/v2/everything" ∧
    (newsReq sampleConfig "ja").searchIn = "title,description" ∧
    (newsReq sampleConfig "ja").sortBy = "publishedAt" ∧
    (newsReq sampleConfig "ja").pageSize = 10 ∧
    (newsReq sampleConfig "ja").timeout = 20 ∧
    (newsReq sampleConfig "ja").language = "ja" :=
  request_news_params sampleConfig sampleWorld "ja" [] (by decide) rfl

/-- C6: with the Gmail address or the app password unset (or empty),
`send_email` fails with a configuration error and an empty event trace (no
SMTP session); consequently no run under such a configuration ever performs
a mail round trip, and every run fails. -/
theorem send_email_missing_credentials (cfg : Config) (w : World)
    (today body : String)
    (hg : envTruthy cfg.gmail_address = false ∨
      envTruthy cfg.gmail_app_password = false) :
    send_email cfg w today body
      = ([], Except.error
          (Err.config "GMAIL_ADDRESS or GMAIL_APP_PASSWORD is not set")) ∧
    (main cfg w today).1.countP Event.isMail = 0 ∧
    ∃ e, (main cfg w today).2 = Except.error e := by
  refine ⟨send_email_config_error cfg w today body hg, ?_⟩
  have hse : ∀ b, send_email cfg w today b
      = ([], Except.error
          (Err.config "GMAIL_ADDRESS or GMAIL_APP_PASSWORD is not set")) :=
    fun b => send_email_config_error cfg w today b hg
  rcases main_branches cfg w today with h1 | ⟨e, h2⟩ |
      ⟨arts, f, hja, hf, hne, h3⟩ | ⟨e, arts, hja, hf, h4⟩ |
      ⟨arts, arts2, f2, hja, hf, hen, hf2, h5⟩
  · rw [h1]
    exact ⟨by simp, _, rfl⟩
  · rw [h2]
    exact ⟨by simp [Event.isMail], _, rfl⟩
  · rw [h3, hse]
    exact ⟨by simp [Event.isMail], _, rfl⟩
  · rw [h4]
    exact ⟨by simp [Event.isMail], _, rfl⟩
  · rw [h5, hse]
    exact ⟨by simp [Event.isMail], _, rfl⟩

/-- Witness for C6: a run configured with an API key but no mail credentials
performs no mail round trip and fails. -/
theorem send_email_missing_credentials_witness :
    send_email configNoMail sampleWorld "2026-10-12" "body"
      = ([], Except.error
          (Err.config "GMAIL_ADDRESS or GMAIL_APP_PASSWORD is not set")) ∧
    (main configNoMail sampleWorld "2026-10-12").1.countP Event.isMail = 0 ∧
    ∃ e, (main configNoMail sampleWorld "2026-10-12").2 = Except.error e :=
  send_email_missing_credentials configNoMail sampleWorld
    "2026-10-12" "body" (Or.inl rfl)

/-- C4: every successful run fetched and filtered Japanese first; the English
fetch happens exactly once if and only if the filtered Japanese result was
empty, and whichever filtered set is final is formatted and sent without a
further fetch; the trace has at most two news round trips and exactly one
mail round trip. -/
theorem main_fallback_control (cfg : Config) (w : World) (today : String)
    (h : (main cfg w today).2 = Except.ok ()) :
    (∃ jaArts jaF, w.news "ja" = Except.ok jaArts ∧
      pyFilter jaArts = Except.ok jaF ∧
      ((jaF ≠ [] ∧ (main cfg w today).1
          = [Event.news (newsReq cfg "ja"),
             mailEv cfg today (build_email_body today jaF)]) ∨
       (jaF = [] ∧ ∃ enArts enF, w.news "en" = Except.ok enArts ∧
         pyFilter enArts = Except.ok enF ∧
         (main cfg w today).1
          = [Event.news (newsReq cfg "ja"), Event.news (newsReq cfg "en"),
             mailEv cfg today (build_email_body today enF)]))) ∧
    (main cfg w today).1.countP Event.isNews ≤ 2 ∧
    (main cfg w today).1.countP Event.isMail = 1 := by
  rcases main_branches cfg w today with h1 | ⟨e, h2⟩ |
      ⟨arts, f, hja, hf, hne, h3⟩ | ⟨e, arts, hja, hf, h4⟩ |
      ⟨arts, arts2, f2, hja, hf, hen, hf2, h5⟩
  · rw [h1] at h
    simp at h
  · rw [h2] at h
    simp at h
  · have hs2 : (send_email cfg w today (build_email_body today f)).2
        = Except.ok () := by
      rw [h3] at h
      exact h
    have hs := send_email_ok_trace cfg w today (build_email_body today f) hs2
    refine ⟨⟨arts, f, hja, hf, Or.inl ⟨hne, ?_⟩⟩, ?_, ?_⟩
    · rw [h3, hs]
    · rw [h3, hs]
      simp [Event.isNews, mailEv]
    · rw [h3, hs]
      simp [Event.isMail, mailEv]
  · rw [h4] at h
    simp at h
  · have hs2 : (send_email cfg w today (build_email_body today f2)).2
        = Except.ok () := by
      rw [h5] at h
      exact h
    have hs := send_email_ok_trace cfg w today (build_email_body today f2) hs2
    refine ⟨⟨arts, [], hja, hf, Or.inr ⟨rfl, arts2, f2, hen, hf2, ?_⟩⟩, ?_, ?_⟩
    · rw [h5, hs]
    · rw [h5, hs]
      simp [Event.isNews, mailEv]
    · rw [h5, hs]
      simp [Event.isMail, mailEv]

/-- Witness for C4: a fully configured run against a world with no matching
Japanese articles fetches both languages once and sends one mail. -/
theorem main_fallback_control_witness :
    (∃ jaArts jaF, sampleWorld.news "ja" = Except.ok jaArts ∧
      pyFilter jaArts = Except.ok jaF ∧
      ((jaF ≠ [] ∧ (main sampleConfig sampleWorld "2026-10-12").1
          = [Event.news (newsReq sampleConfig "ja"),
             mailEv sampleConfig "2026-10-12"
               (build_email_body "2026-10-12" jaF)]) ∨
       (jaF = [] ∧ ∃ enArts enF, sampleWorld.news "en" = Except.ok enArts ∧
         pyFilter enArts = Except.ok enF ∧
         (main sampleConfig sampleWorld "2026-10-12").1
          = [Event.news (newsReq sampleConfig "ja"),
             Event.news (newsReq sampleConfig "en"),
             mailEv sampleConfig "2026-10-12"
               (build_email_body "2026-10-12" enF)]))) ∧
    (main sampleConfig sampleWorld "2026-10-12").1.countP Event.isNews ≤ 2 ∧
    (main sampleConfig sampleWorld "2026-10-12").1.countP Event.isMail = 1 :=
  main_fallback_control sampleConfig sampleWorld "2026-10-12" rfl

end AINews
